import Mathlib

/-!
Shallow embedding of `src/streamlit_app.py` (danudenny/parquet-viewer), a
single-file Streamlit app: upload a parquet file, resolve a geometry column
by name, decode geometries (native / WKT / WKB cascade), summarize, filter
by geometry type, normalize CRS, and render a folium map.

External libraries (pandas, geopandas, shapely, folium) are modelled as
black boxes: a cell of the geometry column is tagged by which decoder
accepts it, reprojection is an abstract function on geometries, and a
geometry is represented by its type tag together with its bounding box
(for a Point the box degenerates to the point itself, so the point's
x-coordinate is `minx` and its y-coordinate is `miny`).
-/

namespace ParquetViewer

/-- The shapely geometry type tags the app supports (its in-app text lists
exactly these six). `gdf.geometry.type` yields one of these per row. -/
inductive GeomType
  | point
  | multiPoint
  | lineString
  | multiLineString
  | polygon
  | multiPolygon
  deriving DecidableEq, Repr

/-- A decoded geometry: its type tag and its bounding box
(minx, miny, maxx, maxy).  For a Point, minx = maxx = x and
miny = maxy = y, so the marker coordinates at line 104 of the source
(`row.geometry.y`, `row.geometry.x`) are `miny` and `minx`. -/
structure Geom where
  gtype : GeomType
  minx : ℚ
  miny : ℚ
  maxx : ℚ
  maxy : ℚ
  deriving DecidableEq, Repr

/-- A raw cell of the selected geometry column, tagged by which of the
three decoders accepts it: a native shapely geometry object, a WKT string
encoding `g`, a WKB byte sequence encoding `g`, or a value none of them
accepts.  `GeoSeries.from_wkt` succeeds on a column iff every cell is a
WKT string; `from_wkb` iff every cell is WKB; `gdf.geometry.type` works
iff every cell is a native geometry. -/
inductive CellVal
  | native (g : Geom)
  | wktStr (g : Geom)
  | wkbBytes (g : Geom)
  | invalid
  deriving DecidableEq, Repr

/-! ### Geometry Column Resolver (source lines 31-40) -/

/-- Lower-case the characters of a string, as `col.lower()` does. -/
def lowerChars (s : String) : List Char :=
  s.data.map Char.toLower

/-- `isPrefOf pat s`: `pat` is an initial segment of `s`. -/
def isPrefOf : List Char → List Char → Bool
  | [], _ => true
  | _ :: _, [] => false
  | a :: pat, b :: s => a == b && isPrefOf pat s

/-- `containsSeq pat s`: `pat` occurs contiguously inside `s`; this is
Python's `pat in s` on strings. -/
def containsSeq (pat : List Char) : List Char → Bool
  | [] => isPrefOf pat []
  | c :: rest => isPrefOf pat (c :: rest) || containsSeq pat rest

/-- Line 31's predicate: `'geom' in col.lower() or 'geometry' in col.lower()`. -/
def matchesGeom (col : String) : Bool :=
  containsSeq "geom".data (lowerChars col) || containsSeq "geometry".data (lowerChars col)

/-- Line 31: `geometry_cols = [col for col in df.columns if ...]`. -/
def geometryCols (cols : List String) : List String :=
  cols.filter matchesGeom

/-- Outcome of the resolver (lines 33-40): error, automatic selection, or a
selectbox over all candidates. -/
inductive ResolveOutcome
  | noGeometryColumn
  | auto (c : String)
  | choose (cs : List String)
  deriving DecidableEq, Repr

/-- Lines 33-40: `if not geometry_cols: st.error(...)`; else if more than
one candidate, `st.selectbox("Select geometry column", geometry_cols)`;
else `geometry_cols[0]`. -/
def resolveGeometryColumn (cols : List String) : ResolveOutcome :=
  match geometryCols cols with
  | [] => ResolveOutcome.noGeometryColumn
  | c :: rest =>
    if rest.isEmpty then ResolveOutcome.auto c
    else ResolveOutcome.choose (c :: rest)

/-- The spec-side notion the resolver is claimed to implement: `pat` occurs
as a contiguous substring. -/
def HasSubstr (pat s : List Char) : Prop :=
  ∃ l r, s = l ++ pat ++ r

/-! ### Geometry Decoder cascade (source lines 42-56) -/

/-- `gpd.GeoSeries.from_wkt(df[geometry_col])` (line 50): succeeds iff every
cell is a WKT string, yielding the decoded geometries. -/
def tryFromWkt : List CellVal → Option (List Geom)
  | [] => some []
  | CellVal.wktStr g :: rest => (tryFromWkt rest).map (g :: ·)
  | _ :: _ => none

/-- `gpd.GeoSeries.from_wkb(df[geometry_col])` (line 53): succeeds iff every
cell is a WKB byte sequence. -/
def tryFromWkb : List CellVal → Option (List Geom)
  | [] => some []
  | CellVal.wkbBytes g :: rest => (tryFromWkb rest).map (g :: ·)
  | _ :: _ => none

/-- Reading the geometry column as already-typed geometry objects
(the line-44 `gpd.GeoDataFrame(df, geometry=geometry_col)` frame, whose
`.geometry.type` only works when every cell is a native geometry). -/
def tryNativeTypes : List CellVal → Option (List Geom)
  | [] => some []
  | CellVal.native g :: rest => (tryNativeTypes rest).map (g :: ·)
  | _ :: _ => none

/-- `isinstance(gdf.geometry.iloc[0], gpd.geoseries.GeoSeries)` (line 47):
a single cell value is a scalar, never a GeoSeries, so this is false for
every cell. -/
def isGeoSeriesCell (_ : CellVal) : Bool := false

/-- Lines 44-55 of the source.  `gdf` is first built with the raw column
(line 44); since `isGeoSeriesCell` is false on the first cell, the code
always enters the conversion branch: try `from_wkt`, then `from_wkb`, and
if both fail show the decode error (`st.error`, line 55) while `gdf`
keeps the line-44 raw column, usable later only if its cells are native
geometries.  Returns (the usable geometry list if any, whether the decode
error message was shown). -/
def decodeCascade (col : List CellVal) : Option (List Geom) × Bool :=
  match tryFromWkt col with
  | some gs => (some gs, false)
  | none =>
    match tryFromWkb col with
    | some gs => (some gs, false)
    | none => (tryNativeTypes col, true)

/-! ### Filter, CRS normalization, bounds (source lines 77-89) -/

/-- A row of the decoded frame: its pandas index and its geometry. -/
def enumRows (geoms : List Geom) : List (Nat × Geom) :=
  geoms.enum

/-- The per-row geometry type, `gdf.geometry.type` for one row. -/
def rowType (r : Nat × Geom) : GeomType :=
  r.2.gtype

/-- Line 78: `gdf[gdf.geometry.type.isin(selected_types)]`. -/
def filterByTypes (rows : List (Nat × Geom)) (sel : List GeomType) : List (Nat × Geom) :=
  rows.filter (fun r => decide (rowType r ∈ sel))

/-- A geometry frame: the (nullable) CRS descriptor and the indexed rows. -/
structure GeoFrame where
  crs : Option String
  rows : List (Nat × Geom)
  deriving DecidableEq, Repr

/-- Lines 83-84: `if gdf.crs and gdf.crs != "EPSG:4326":
filtered_gdf = filtered_gdf.to_crs("EPSG:4326")`.  `rp` is the black-box
per-geometry reprojection performed by `to_crs`. -/
def normalizeCRS (rp : Geom → Geom) (f : GeoFrame) : GeoFrame :=
  match f.crs with
  | none => f
  | some c =>
    if c = "EPSG:4326" then f
    else { crs := some "EPSG:4326", rows := f.rows.map (fun r => (r.1, rp r.2)) }

/-- Line 87: `filtered_gdf.total_bounds`, the numpy array
[minx, miny, maxx, maxy] over all geometries; undefined (NaN) on an empty
frame, modelled as `none`. -/
def totalBounds : List Geom → Option (ℚ × ℚ × ℚ × ℚ)
  | [] => none
  | g :: gs =>
    some (gs.foldl
      (fun b h => (min b.1 h.minx, min b.2.1 h.miny, max b.2.2.1 h.maxx, max b.2.2.2 h.maxy))
      (g.minx, g.miny, g.maxx, g.maxy))

/-- Lines 88-89: `center_lat = (bounds[1] + bounds[3]) / 2`,
`center_lon = (bounds[0] + bounds[2]) / 2`; returned as (lat, lon). -/
def mapCenter (geoms : List Geom) : Option (ℚ × ℚ) :=
  (totalBounds geoms).map (fun b => ((b.2.1 + b.2.2.2) / 2, (b.1 + b.2.2.1) / 2))

/-! ### Map layers (source lines 94-134) -/

/-- One folium Marker of the cluster: `popup=f"ID: {idx}"` and
`location=[row.geometry.y, row.geometry.x]`. -/
structure Marker where
  popupId : Nat
  lat : ℚ
  lon : ℚ
  deriving DecidableEq, Repr

/-- A layer added to the folium map. -/
inductive MapLayer
  | markerCluster (ms : List Marker)
  | lineLayer (name : GeomType) (rows : List (Nat × Geom))
  | polygonLayer (name : GeomType) (rows : List (Nat × Geom))
  deriving DecidableEq, Repr

/-- One iteration of the loop at lines 95-131: restrict to the rows of this
type; if any, add a MarkerCluster for `'Point'`, a styled GeoJson layer for
`'LineString'`/`'MultiLineString'` and for `'Polygon'`/`'MultiPolygon'`.
No branch handles `'MultiPoint'`: such rows add nothing to the map. -/
def layerFor (filtered : List (Nat × Geom)) (gt : GeomType) : List MapLayer :=
  let typeRows := filtered.filter (fun r => decide (rowType r = gt))
  if typeRows.length > 0 then
    match gt with
    | GeomType.point =>
      [MapLayer.markerCluster (typeRows.map (fun r => ⟨r.1, r.2.miny, r.2.minx⟩))]
    | GeomType.lineString => [MapLayer.lineLayer gt typeRows]
    | GeomType.multiLineString => [MapLayer.lineLayer gt typeRows]
    | GeomType.polygon => [MapLayer.polygonLayer gt typeRows]
    | GeomType.multiPolygon => [MapLayer.polygonLayer gt typeRows]
    | GeomType.multiPoint => []
  else []

/-- Lines 95-131: `for geom_type in selected_types: ...`. -/
def buildLayers (selected : List GeomType) (filtered : List (Nat × Geom)) : List MapLayer :=
  (selected.map (layerFor filtered)).flatten

/-! ### The full processing pass (source lines 19-153) -/

/-- `gdf.geometry.type.unique()` (line 64): the distinct values in order of
first occurrence, as pandas `unique` returns them. -/
def uniqueAux (seen : List GeomType) : List GeomType → List GeomType
  | [] => []
  | t :: ts => if t ∈ seen then uniqueAux seen ts else t :: uniqueAux (t :: seen) ts

/-- The distinct geometry types of the decoded frame, first occurrences first. -/
def uniqueTypes (ts : List GeomType) : List GeomType :=
  uniqueAux [] ts

/-- The user-facing error messages the script can emit (`st.error` calls at
lines 34, 55, 141, 146, 149), tagged by the spec's taxonomy. -/
inductive ErrKind
  | readError
  | noGeometryColumn
  | decodeError
  | processingError
  | mapBuildError
  deriving DecidableEq, Repr

/-- Everything that varies between uploads, with the external libraries'
behavior pre-resolved: whether `pq.read_table` succeeds, the column names,
the cells of the selected geometry column, the source CRS, what the user
picked in the type multiselect, and whether folium raises during map
construction. -/
structure UploadInput where
  readOk : Bool
  columns : List String
  geomColVals : List CellVal
  crs : Option String
  userSelection : List GeomType
  mapLibOk : Bool
  deriving Repr

/-- Observable outcome of one processing pass: which error messages were
shown (in order), whether the informational summary stage ran (line 58
onward), whether the empty-selection warning (line 143) was shown, whether
the map was displayed (line 138), the layers built, the filtered rows of
the map branch (when it ran), the bounding envelope computed there, and
whether the temporary file still exists. -/
structure PassResult where
  errors : List ErrKind
  infoShown : Bool
  warningShown : Bool
  mapShown : Bool
  layers : List MapLayer
  filtered : Option (List (Nat × Geom))
  envelope : Option (ℚ × ℚ × ℚ × ℚ)
  tmpExists : Bool
  deriving DecidableEq, Repr

/-- Lines 77-143: the `if selected_types:` block.  On a non-empty selection,
filter the rows (line 78), then inside the map `try`: normalize the CRS
(lines 83-84), compute bounds and center (lines 87-89), build the per-type
layers (lines 95-131) and display the map; any exception there is caught
and shown as a map error (line 141).  On an empty selection, show the
warning (line 143) and build nothing. -/
def renderStage (rp : Geom → Geom) (crs : Option String) (mapLibOk : Bool)
    (errs0 : List ErrKind) (geoms : List Geom) (selected : List GeomType) : PassResult :=
  if selected.isEmpty then
    { errors := errs0, infoShown := true, warningShown := true, mapShown := false,
      layers := [], filtered := none, envelope := none, tmpExists := true }
  else
    let filtered0 := filterByTypes (enumRows geoms) selected
    let nf := normalizeCRS rp { crs := crs, rows := filtered0 }
    let bounds := totalBounds (nf.rows.map Prod.snd)
    if mapLibOk then
      { errors := errs0, infoShown := true, warningShown := false, mapShown := true,
        layers := buildLayers selected nf.rows, filtered := some nf.rows,
        envelope := bounds, tmpExists := true }
    else
      { errors := errs0 ++ [ErrKind.mapBuildError], infoShown := true, warningShown := false,
        mapShown := false, layers := [], filtered := some nf.rows,
        envelope := bounds, tmpExists := true }

/-- The body of the `try` at lines 25-149, given that the temporary file was
written before it (lines 21-23): read the parquet file (read failure is
caught at line 148); resolve the geometry column (line 31), erroring when
none matches (line 34); run the decode cascade (lines 42-55) — on an empty
column `gdf.geometry.iloc[0]` at line 47 raises, caught at line 145; show
the summary (lines 58-62); compute `gdf.geometry.type.unique()` (line 64),
which raises when the kept column is not usable geometry (caught at line
145, after the summary header already ran); restrict the multiselect value
to its options (lines 73-75) and run the filter/render stage.  Every exit
leaves the temporary file in place: only the `finally` removes it. -/
def passBody (rp : Geom → Geom) (inp : UploadInput) : PassResult :=
  if !inp.readOk then
    { errors := [ErrKind.readError], infoShown := false, warningShown := false,
      mapShown := false, layers := [], filtered := none, envelope := none, tmpExists := true }
  else if (geometryCols inp.columns).isEmpty then
    { errors := [ErrKind.noGeometryColumn], infoShown := false, warningShown := false,
      mapShown := false, layers := [], filtered := none, envelope := none, tmpExists := true }
  else
    match inp.geomColVals with
    | [] =>
      { errors := [ErrKind.processingError], infoShown := false, warningShown := false,
        mapShown := false, layers := [], filtered := none, envelope := none, tmpExists := true }
    | v :: vs =>
      let dec := decodeCascade (v :: vs)
      let errs0 := if dec.2 then [ErrKind.decodeError] else []
      match dec.1 with
      | none =>
        { errors := errs0 ++ [ErrKind.processingError], infoShown := true,
          warningShown := false, mapShown := false, layers := [], filtered := none,
          envelope := none, tmpExists := true }
      | some geoms =>
        let gtypes := uniqueTypes (geoms.map Geom.gtype)
        let selected := inp.userSelection.filter (fun t => decide (t ∈ gtypes))
        renderStage rp inp.crs inp.mapLibOk errs0 geoms selected

/-- Lines 19-153: the whole per-upload block.  The `finally` at lines
151-153 unlinks the temporary file whatever the body did. -/
def runPass (rp : Geom → Geom) (inp : UploadInput) : PassResult :=
  { passBody rp inp with tmpExists := false }

/-! ### Sample data used by the concrete theorems -/

/-- A Point at (x, y) = (1, 2). -/
def gPt : Geom := { gtype := GeomType.point, minx := 1, miny := 2, maxx := 1, maxy := 2 }

/-- A Polygon with bounding box (0, -1, 4, 3). -/
def gPoly : Geom := { gtype := GeomType.polygon, minx := 0, miny := -1, maxx := 4, maxy := 3 }

/-- A MultiPoint with bounding box (0, 0, 1, 1). -/
def gMultiPt : Geom := { gtype := GeomType.multiPoint, minx := 0, miny := 0, maxx := 1, maxy := 1 }

/-! ### Helper lemmas -/

theorem isPrefOf_iff (pat : List Char) : ∀ s : List Char,
    isPrefOf pat s = true ↔ ∃ r, s = pat ++ r := by
  induction pat with
  | nil => intro s; simp [isPrefOf]
  | cons a pat ih =>
    intro s
    cases s with
    | nil =>
      simp only [isPrefOf]
      constructor
      · intro h; cases h
      · rintro ⟨r, hr⟩; cases hr
    | cons b s =>
      simp only [isPrefOf, Bool.and_eq_true, beq_iff_eq, ih]
      constructor
      · rintro ⟨rfl, r, rfl⟩; exact ⟨r, rfl⟩
      · rintro ⟨r, hr⟩
        injection hr with h1 h2
        exact ⟨h1.symm, r, h2⟩

theorem containsSeq_iff (pat : List Char) : ∀ s : List Char,
    containsSeq pat s = true ↔ HasSubstr pat s := by
  intro s
  induction s with
  | nil =>
    simp only [containsSeq, isPrefOf_iff, HasSubstr]
    constructor
    · rintro ⟨r, hr⟩
      exact ⟨[], r, by simpa using hr⟩
    · rintro ⟨l, r, h⟩
      cases l with
      | nil => exact ⟨r, by simpa using h⟩
      | cons x xs => cases h
  | cons c rest ih =>
    simp only [containsSeq, Bool.or_eq_true, isPrefOf_iff, ih, HasSubstr]
    constructor
    · rintro (⟨r, hr⟩ | ⟨l, r, hr⟩)
      · exact ⟨[], r, by simpa using hr⟩
      · exact ⟨c :: l, r, by simp [hr]⟩
    · rintro ⟨l, r, h⟩
      cases l with
      | nil => exact Or.inl ⟨r, by simpa using h⟩
      | cons x xs =>
        injection h with h1 h2
        exact Or.inr ⟨xs, r, h2⟩

theorem mem_of_mem_uniqueAux (t : GeomType) :
    ∀ (ts seen : List GeomType), t ∈ uniqueAux seen ts → t ∈ ts := by
  intro ts
  induction ts with
  | nil => intro seen h; simp [uniqueAux] at h
  | cons u us ih =>
    intro seen h
    simp only [uniqueAux] at h
    by_cases hu : u ∈ seen
    · simp only [if_pos hu] at h
      exact List.mem_cons_of_mem u (ih seen h)
    · simp only [if_neg hu] at h
      rcases List.mem_cons.mp h with h1 | h2
      · exact h1 ▸ List.mem_cons_self u us
      · exact List.mem_cons_of_mem u (ih (u :: seen) h2)

theorem mem_of_mem_uniqueTypes {t : GeomType} {ts : List GeomType}
    (h : t ∈ uniqueTypes ts) : t ∈ ts :=
  mem_of_mem_uniqueAux t ts [] h

theorem normalizeCRS_rows_length (rp : Geom → Geom) (f : GeoFrame) :
    (normalizeCRS rp f).rows.length = f.rows.length := by
  unfold normalizeCRS
  cases f.crs with
  | none => rfl
  | some c =>
    by_cases h : c = "EPSG:4326" <;> simp [h]

/-! ### Claim theorems -/

/-- Claim C2: the resolver selects candidates by case-insensitive substring
match of each column name against "geom" and "geometry", collecting all
matches in original column order; zero matches signal the no-geometry-column
error, exactly one is auto-selected, and more than one presents the full
candidate set for user selection. -/
theorem resolver_spec (cols : List String) :
    (geometryCols cols).Sublist cols
  ∧ (∀ c, c ∈ geometryCols cols ↔
      c ∈ cols ∧ (HasSubstr "geom".data (lowerChars c) ∨ HasSubstr "geometry".data (lowerChars c)))
  ∧ (geometryCols cols = [] → resolveGeometryColumn cols = ResolveOutcome.noGeometryColumn)
  ∧ (∀ c, geometryCols cols = [c] → resolveGeometryColumn cols = ResolveOutcome.auto c)
  ∧ (∀ c c2 cs, geometryCols cols = c :: c2 :: cs →
      resolveGeometryColumn cols = ResolveOutcome.choose (c :: c2 :: cs)) := by
  refine ⟨List.filter_sublist cols, ?_, ?_, ?_, ?_⟩
  · intro c
    simp only [geometryCols, List.mem_filter, matchesGeom, Bool.or_eq_true, containsSeq_iff]
  · intro h
    simp [resolveGeometryColumn, h]
  · intro c h
    simp [resolveGeometryColumn, h]
  · intro c c2 cs h
    simp [resolveGeometryColumn, h]

/-- Claim C6: the filter keeps exactly the rows whose geometry type is in
the selected set, with their multiplicities, and the surviving rows appear
in the same relative order as in the input frame. -/
theorem filter_by_types_spec (rows : List (Nat × Geom)) (sel : List GeomType) :
    (filterByTypes rows sel).Sublist rows
  ∧ (∀ r, r ∈ filterByTypes rows sel ↔ r ∈ rows ∧ rowType r ∈ sel)
  ∧ (∀ r, (filterByTypes rows sel).count r =
      if rowType r ∈ sel then rows.count r else 0) := by
  refine ⟨List.filter_sublist rows, ?_, ?_⟩
  · intro r
    simp [filterByTypes]
  · intro r
    by_cases h : rowType r ∈ sel
    · rw [if_pos h]
      exact List.count_filter (by simpa using h)
    · rw [if_neg h]
      refine List.count_eq_zero.mpr ?_
      simp only [filterByTypes, List.mem_filter, decide_eq_true_eq]
      exact fun hc => h hc.2

/-- Claim C7: filtering by a set of types is idempotent: filtering an
already-filtered frame with the same selection changes nothing. -/
theorem filter_by_types_idempotent (rows : List (Nat × Geom)) (sel : List GeomType) :
    filterByTypes (filterByTypes rows sel) sel = filterByTypes rows sel := by
  simp [filterByTypes, List.filter_filter]

/-- Claim C4: filtering with the empty selection yields zero rows, and the
empty-selection branch shows the warning, builds no map, no layers and no
bounding envelope, and adds no error message. -/
theorem empty_selection_spec (rp : Geom → Geom) (crs : Option String) (mapLibOk : Bool)
    (errs0 : List ErrKind) (geoms : List Geom) (rows : List (Nat × Geom)) :
    filterByTypes rows [] = []
  ∧ renderStage rp crs mapLibOk errs0 geoms [] =
      { errors := errs0, infoShown := true, warningShown := true, mapShown := false,
        layers := [], filtered := none, envelope := none, tmpExists := true } := by
  constructor
  · simp [filterByTypes]
  · rfl

/-- Claim C5: the CRS normalization reprojects every geometry to EPSG:4326
exactly when the frame's CRS is known and differs from EPSG:4326; an
unknown CRS passes through unchanged, and a frame already in EPSG:4326 is
returned identically. -/
theorem normalize_crs_spec (rp : Geom → Geom) (f : GeoFrame) :
    (f.crs = none → normalizeCRS rp f = f)
  ∧ (f.crs = some "EPSG:4326" → normalizeCRS rp f = f)
  ∧ (∀ c, f.crs = some c → c ≠ "EPSG:4326" →
      normalizeCRS rp f =
        { crs := some "EPSG:4326", rows := f.rows.map (fun r => (r.1, rp r.2)) }) := by
  refine ⟨?_, ?_, ?_⟩
  · intro h; simp [normalizeCRS, h]
  · intro h; simp [normalizeCRS, h]
  · intro c hc hne; simp [normalizeCRS, hc, hne]

theorem renderStage_tmpExists (rp : Geom → Geom) (crs : Option String) (ok : Bool)
    (errs0 : List ErrKind) (geoms : List Geom) (selected : List GeomType) :
    (renderStage rp crs ok errs0 geoms selected).tmpExists = true := by
  unfold renderStage
  split
  · rfl
  · split <;> rfl

/-- Claim C8: the temporary file written at lines 21-23 no longer exists
once the pass completes: it is alive for the whole `try` body (every branch
of which leaves it in place) and the `finally` at lines 151-153 removes it
whatever the outcome was. -/
theorem tmp_file_cleanup (rp : Geom → Geom) (inp : UploadInput) :
    (passBody rp inp).tmpExists = true ∧ (runPass rp inp).tmpExists = false := by
  refine ⟨?_, rfl⟩
  unfold passBody
  split
  · rfl
  · split
    · rfl
    · split
      · rfl
      · dsimp only
        split
        · rfl
        · exact renderStage_tmpExists _ _ _ _ _ _

/-- An upload whose geometry column holds one value that no decoder
accepts: not a geometry object, not WKT, not WKB. -/
def undecodableInput : UploadInput :=
  { readOk := true, columns := ["geometry"], geomColVals := [CellVal.invalid],
    crs := none, userSelection := [], mapLibOk := true }

/-- An upload whose geometry column already holds a native geometry object
(a Point), the case the cascade's first strategy is supposed to accept. -/
def nativeGeomInput : UploadInput :=
  { readOk := true, columns := ["geometry"], geomColVals := [CellVal.native gPt],
    crs := none, userSelection := [GeomType.point], mapLibOk := true }

/-- Claim C1 (code bug): when all three decode strategies fail, the script
shows the decode error but does not halt — the summary stage still runs
(and then a second, generic processing error appears); and for a column of
native geometry objects the cascade never detects the first strategy's
success (the line-47 `isinstance(..., GeoSeries)` test is false on any
cell), so the decode error is shown even though the data is valid and the
map is still rendered afterwards. -/
theorem decode_error_does_not_halt :
    ((runPass id undecodableInput).errors = [ErrKind.decodeError, ErrKind.processingError]
      ∧ (runPass id undecodableInput).infoShown = true)
  ∧ ((runPass id nativeGeomInput).errors = [ErrKind.decodeError]
      ∧ (runPass id nativeGeomInput).mapShown = true) :=
  ⟨⟨rfl, rfl⟩, ⟨rfl, rfl⟩⟩

/-- Claim C3 (code bug): the per-type layer loop has no branch for
MultiPoint, so a selected MultiPoint type with rows present builds no
layer at all, while Point rows do become one clustered-marker layer with
one marker per row carrying the row identifier in its popup. -/
theorem multipoint_rows_render_nothing :
    buildLayers [GeomType.multiPoint] [(0, gMultiPt)] = []
  ∧ buildLayers [GeomType.point] [(0, gPt)] =
      [MapLayer.markerCluster [{ popupId := 0, lat := 2, lon := 1 }]] :=
  ⟨rfl, rfl⟩

/-! ### Bounding envelope and map center (claim C9) -/

theorem foldl_min_le_init (l : List ℚ) : ∀ a : ℚ, l.foldl min a ≤ a := by
  induction l with
  | nil => intro a; simp
  | cons x xs ih => intro a; exact le_trans (ih (min a x)) (min_le_left a x)

theorem foldl_min_le_mem (l : List ℚ) : ∀ a x : ℚ, x ∈ l → l.foldl min a ≤ x := by
  induction l with
  | nil => intro a x hx; cases hx
  | cons y ys ih =>
    intro a x hx
    rcases List.mem_cons.mp hx with rfl | h2
    · exact le_trans (foldl_min_le_init ys (min a x)) (min_le_right a x)
    · exact ih (min a y) x h2

theorem foldl_min_mem (l : List ℚ) : ∀ a : ℚ, l.foldl min a = a ∨ l.foldl min a ∈ l := by
  induction l with
  | nil => intro a; exact Or.inl rfl
  | cons y ys ih =>
    intro a
    rcases ih (min a y) with h | h
    · rcases min_choice a y with h2 | h2
      · exact Or.inl (h.trans h2)
      · refine Or.inr ?_
        have : List.foldl min a (y :: ys) = y := h.trans h2
        rw [this]
        exact List.mem_cons_self y ys
    · exact Or.inr (List.mem_cons_of_mem y h)

theorem foldl_max_ge_init (l : List ℚ) : ∀ a : ℚ, a ≤ l.foldl max a := by
  induction l with
  | nil => intro a; simp
  | cons x xs ih => intro a; exact le_trans (le_max_left a x) (ih (max a x))

theorem foldl_max_ge_mem (l : List ℚ) : ∀ a x : ℚ, x ∈ l → x ≤ l.foldl max a := by
  induction l with
  | nil => intro a x hx; cases hx
  | cons y ys ih =>
    intro a x hx
    rcases List.mem_cons.mp hx with rfl | h2
    · exact le_trans (le_max_right a x) (foldl_max_ge_init ys (max a x))
    · exact ih (max a y) x h2

theorem foldl_max_mem (l : List ℚ) : ∀ a : ℚ, l.foldl max a = a ∨ l.foldl max a ∈ l := by
  induction l with
  | nil => intro a; exact Or.inl rfl
  | cons y ys ih =>
    intro a
    rcases ih (max a y) with h | h
    · rcases max_choice a y with h2 | h2
      · exact Or.inl (h.trans h2)
      · refine Or.inr ?_
        have : List.foldl max a (y :: ys) = y := h.trans h2
        rw [this]
        exact List.mem_cons_self y ys
    · exact Or.inr (List.mem_cons_of_mem y h)

theorem foldl_bounds_decomp (l : List Geom) : ∀ b : ℚ × ℚ × ℚ × ℚ,
    l.foldl
      (fun b h => (min b.1 h.minx, min b.2.1 h.miny, max b.2.2.1 h.maxx, max b.2.2.2 h.maxy)) b
    = ((l.map Geom.minx).foldl min b.1, (l.map Geom.miny).foldl min b.2.1,
       (l.map Geom.maxx).foldl max b.2.2.1, (l.map Geom.maxy).foldl max b.2.2.2) := by
  induction l with
  | nil => intro b; rfl
  | cons g gs ih =>
    intro b
    simp only [List.foldl_cons, List.map_cons]
    exact ih _

/-- Claim C9: for a non-empty frame, `total_bounds` is the bounding
envelope of the geometries (a bound on every row, attained in each
component), and the map center is the midpoint of its x and y extents:
center-lat = (min-y + max-y) / 2 and center-lon = (min-x + max-x) / 2. -/
theorem map_center_is_envelope_midpoint (geoms : List Geom) (h : geoms ≠ []) :
    ∃ b : ℚ × ℚ × ℚ × ℚ,
      totalBounds geoms = some b
    ∧ (∀ g ∈ geoms, b.1 ≤ g.minx ∧ b.2.1 ≤ g.miny ∧ g.maxx ≤ b.2.2.1 ∧ g.maxy ≤ b.2.2.2)
    ∧ (∃ g ∈ geoms, g.minx = b.1) ∧ (∃ g ∈ geoms, g.miny = b.2.1)
    ∧ (∃ g ∈ geoms, g.maxx = b.2.2.1) ∧ (∃ g ∈ geoms, g.maxy = b.2.2.2)
    ∧ mapCenter geoms = some ((b.2.1 + b.2.2.2) / 2, (b.1 + b.2.2.1) / 2) := by
  cases geoms with
  | nil => exact absurd rfl h
  | cons g gs =>
    have hb : totalBounds (g :: gs)
        = some ((gs.map Geom.minx).foldl min g.minx, (gs.map Geom.miny).foldl min g.miny,
                (gs.map Geom.maxx).foldl max g.maxx, (gs.map Geom.maxy).foldl max g.maxy) := by
      simp only [totalBounds, foldl_bounds_decomp]
    refine ⟨_, hb, ?_, ?_, ?_, ?_, ?_, ?_⟩
    · intro g2 hg2
      rcases List.mem_cons.mp hg2 with rfl | h2
      · exact ⟨foldl_min_le_init _ _, foldl_min_le_init _ _,
          foldl_max_ge_init _ _, foldl_max_ge_init _ _⟩
      · exact ⟨foldl_min_le_mem _ _ _ (List.mem_map_of_mem Geom.minx h2),
          foldl_min_le_mem _ _ _ (List.mem_map_of_mem Geom.miny h2),
          foldl_max_ge_mem _ _ _ (List.mem_map_of_mem Geom.maxx h2),
          foldl_max_ge_mem _ _ _ (List.mem_map_of_mem Geom.maxy h2)⟩
    · rcases foldl_min_mem (gs.map Geom.minx) g.minx with h2 | h2
      · exact ⟨g, List.mem_cons_self g gs, h2.symm⟩
      · rcases List.mem_map.mp h2 with ⟨g2, hg2, hx⟩
        exact ⟨g2, List.mem_cons_of_mem g hg2, hx⟩
    · rcases foldl_min_mem (gs.map Geom.miny) g.miny with h2 | h2
      · exact ⟨g, List.mem_cons_self g gs, h2.symm⟩
      · rcases List.mem_map.mp h2 with ⟨g2, hg2, hx⟩
        exact ⟨g2, List.mem_cons_of_mem g hg2, hx⟩
    · rcases foldl_max_mem (gs.map Geom.maxx) g.maxx with h2 | h2
      · exact ⟨g, List.mem_cons_self g gs, h2.symm⟩
      · rcases List.mem_map.mp h2 with ⟨g2, hg2, hx⟩
        exact ⟨g2, List.mem_cons_of_mem g hg2, hx⟩
    · rcases foldl_max_mem (gs.map Geom.maxy) g.maxy with h2 | h2
      · exact ⟨g, List.mem_cons_self g gs, h2.symm⟩
      · rcases List.mem_map.mp h2 with ⟨g2, hg2, hx⟩
        exact ⟨g2, List.mem_cons_of_mem g hg2, hx⟩
    · rw [mapCenter, hb]
      rfl

/-- Witness for claim C9 at the two-geometry frame [gPt, gPoly]. -/
theorem map_center_witness :
    ∃ b : ℚ × ℚ × ℚ × ℚ,
      totalBounds [gPt, gPoly] = some b
    ∧ (∀ g ∈ [gPt, gPoly], b.1 ≤ g.minx ∧ b.2.1 ≤ g.miny ∧ g.maxx ≤ b.2.2.1 ∧ g.maxy ≤ b.2.2.2)
    ∧ (∃ g ∈ [gPt, gPoly], g.minx = b.1) ∧ (∃ g ∈ [gPt, gPoly], g.miny = b.2.1)
    ∧ (∃ g ∈ [gPt, gPoly], g.maxx = b.2.2.1) ∧ (∃ g ∈ [gPt, gPoly], g.maxy = b.2.2.2)
    ∧ mapCenter [gPt, gPoly] = some ((b.2.1 + b.2.2.2) / 2, (b.1 + b.2.2.1) / 2) :=
  map_center_is_envelope_midpoint [gPt, gPoly] (by simp)

/-! ### Reachability of the map branch (claim C10) -/

theorem renderStage_filtered_nonempty (rp : Geom → Geom) (crs : Option String) (ok : Bool)
    (errs0 : List ErrKind) (geoms : List Geom) (selected : List GeomType)
    (rows : List (Nat × Geom))
    (hsub : ∀ t ∈ selected, t ∈ geoms.map Geom.gtype)
    (h : (renderStage rp crs ok errs0 geoms selected).filtered = some rows) :
    rows ≠ [] := by
  simp only [renderStage] at h
  split at h
  · simp at h
  · rename_i hsel
    have hne : ∃ t ts, selected = t :: ts := by
      cases selected with
      | nil => simp at hsel
      | cons t ts => exact ⟨t, ts, rfl⟩
    rcases hne with ⟨t, ts, rfl⟩
    have hmem : t ∈ geoms.map Geom.gtype := hsub t (List.mem_cons_self t ts)
    rcases List.mem_map.mp hmem with ⟨g, hg, hgt⟩
    have hrow : ∃ r, r ∈ enumRows geoms ∧ r.2 = g := by
      have : g ∈ (enumRows geoms).map Prod.snd := by
        rw [enumRows, List.enum_map_snd]; exact hg
      rcases List.mem_map.mp this with ⟨r, hr, hr2⟩
      exact ⟨r, hr, hr2⟩
    rcases hrow with ⟨r, hr, hr2⟩
    have hfil : r ∈ filterByTypes (enumRows geoms) (t :: ts) := by
      rw [filterByTypes, List.mem_filter]
      refine ⟨hr, ?_⟩
      simp only [decide_eq_true_eq, rowType, hr2, hgt]
      exact List.mem_cons_self t ts
    have hlen : (filterByTypes (enumRows geoms) (t :: ts)).length ≠ 0 :=
      Nat.pos_iff_ne_zero.mp (List.length_pos_of_mem hfil)
    have hnf : rows =
        (normalizeCRS rp { crs := crs, rows := filterByTypes (enumRows geoms) (t :: ts) }).rows := by
      split at h <;> exact (Option.some.inj h).symm
    intro hrows
    rw [hrows] at hnf
    have := normalizeCRS_rows_length rp
      { crs := crs, rows := filterByTypes (enumRows geoms) (t :: ts) }
    rw [← hnf] at this
    exact hlen this.symm

/-- Claim C10: whenever the map-construction branch runs (the pass records
a filtered frame), that frame has at least one row — the multiselect's
options are the distinct types present in the decoded frame, so every
effective selection keeps a row, and the bounding envelope is never
computed over an empty frame. -/
theorem map_branch_nonempty (rp : Geom → Geom) (inp : UploadInput)
    (rows : List (Nat × Geom)) :
    (runPass rp inp).filtered = some rows → rows ≠ [] := by
  intro h
  have h1 : (passBody rp inp).filtered = some rows := h
  simp only [passBody] at h1
  split at h1
  · simp at h1
  · split at h1
    · simp at h1
    · split at h1
      · simp at h1
      · split at h1
        · simp at h1
        · rename_i v vs geoms hdec
          refine renderStage_filtered_nonempty rp inp.crs inp.mapLibOk _ geoms _ rows ?_ h1
          intro t ht
          rcases List.mem_filter.mp ht with ⟨_, ht2⟩
          exact mem_of_mem_uniqueTypes (of_decide_eq_true ht2)

/-- An upload with one WKT Point in a column named "geometry": the map
branch runs with exactly that one row. -/
def wktPointInput : UploadInput :=
  { readOk := true, columns := ["geometry"], geomColVals := [CellVal.wktStr gPt],
    crs := none, userSelection := [GeomType.point], mapLibOk := true }

/-- Witness for claim C10: the pass on `wktPointInput` records the filtered
frame [(0, gPt)], which is indeed non-empty. -/
theorem map_branch_nonempty_witness : ([((0 : Nat), gPt)] : List (Nat × Geom)) ≠ [] :=
  map_branch_nonempty id wktPointInput [(0, gPt)] (by rfl)

end ParquetViewer
